import Mathlib

set_option autoImplicit false

/-!
Shallow embedding of `use-context-selector` (src/index.ts).

Modelling conventions:

* JS `Object.is` (reference identity on objects) is modelled as decidable
  equality on the model types; selectors are contractually required to
  return referentially stable results, so equality of model values stands
  for reference identity of the JS objects.

* A mutable ref cell (`useRef`) is modelled by explicit state passing: the
  bundle of refs `{ v, n, l }` becomes a record threaded through the
  operations, and each operation returns the updated record together with
  the notifications it delivered.

* A JS function that can throw is modelled with `Except`: the selector is
  `V → Except Unit S` and `Except.error ()` stands for a thrown exception.

* The subscription reducer (the anonymous function passed to `useReducer`
  at src/index.ts lines 138-158) returns either the previous state object
  itself (`return prev`, which makes React bail out of the re-render) or a
  freshly allocated object literal (which is always reference-distinct
  from `prev`, hence schedules a re-render).  This reference-level
  distinction is encoded by returning an `Option`: `none` models
  `return prev`, and `some st` models returning a new object whose fields
  are `st`.
-/

/-- A notification sent to the listeners of a cell, `[number] | [number, Value]`
in the source (src/index.ts line 34): `versionOnly n` is the one-element
tuple `[n]` broadcast in phase 1, `versionAndValue n v` is the two-element
tuple `[n, v]` broadcast in phase 2. -/
inductive Notification (V : Type) where
  | versionOnly : Int → Notification V
  | versionAndValue : Int → V → Notification V
  deriving DecidableEq

/-- The version component `next[0]` carried by a notification. -/
def Notification.version {V : Type} : Notification V → Int
  | versionOnly n => n
  | versionAndValue n _ => n

/-- The value/version pair held by a mounted Provider's refs:
`valueRef.current` and `versionRef.current` (src/index.ts lines 47-48). -/
structure CellState (V : Type) where
  value : V
  version : Int
  deriving DecidableEq

/-- One phase of the update protocol acting on the cell state.
`bump` is the body of the `update` closure (src/index.ts lines 52-58):
`versionRef.current += 1` followed by the `[version]` broadcast.
`commit v` is the Provider's layout effect (src/index.ts lines 68-76):
`valueRef.current = value; versionRef.current += 1` followed by the
`[version, value]` broadcast. -/
inductive Phase (V : Type) where
  | bump : Phase V
  | commit : V → Phase V
  deriving DecidableEq

/-- Executing one phase on the cell state: the updated state and the
notification broadcast to every listener during that phase. -/
def stepCell {V : Type} (s : CellState V) : Phase V → CellState V × Notification V
  | Phase.bump =>
      ({ s with version := s.version + 1 }, Notification.versionOnly (s.version + 1))
  | Phase.commit v =>
      ({ value := v, version := s.version + 1 }, Notification.versionAndValue (s.version + 1) v)

/-- Executing a sequence of phases: the final cell state and the broadcasts
in delivery order (the listeners receive each broadcast synchronously via
`listeners.forEach`, so all deliveries of an earlier broadcast precede all
deliveries of a later one). -/
def runCell {V : Type} : CellState V → List (Phase V) → CellState V × List (Notification V)
  | s, [] => (s, [])
  | s, p :: ps =>
      let sn := stepCell s p
      let rest := runCell sn.1 ps
      (rest.1, sn.2 :: rest.2)

/-- The notification a phase broadcasts when the version counter stood at
`base` before the phase ran. -/
def phaseNotif {V : Type} (base : Int) : Phase V → Notification V
  | Phase.bump => Notification.versionOnly (base + 1)
  | Phase.commit v => Notification.versionAndValue (base + 1) v

theorem stepCell_version {V : Type} (s : CellState V) (p : Phase V) :
    (stepCell s p).1.version = s.version + 1 := by
  cases p <;> rfl

theorem stepCell_notif {V : Type} (s : CellState V) (p : Phase V) :
    (stepCell s p).2 = phaseNotif s.version p := by
  cases p <;> rfl

theorem stepCell_notif_version {V : Type} (s : CellState V) (p : Phase V) :
    (stepCell s p).2.version = s.version + 1 := by
  cases p <;> rfl

theorem runCell_length {V : Type} (s : CellState V) (ps : List (Phase V)) :
    ((runCell s ps).2).length = ps.length := by
  induction ps generalizing s with
  | nil => rfl
  | cons p ps ih => simp [runCell, ih]

theorem runCell_final_version {V : Type} (s : CellState V) (ps : List (Phase V)) :
    (runCell s ps).1.version = s.version + ps.length := by
  induction ps generalizing s with
  | nil => simp [runCell]
  | cons p ps ih =>
      simp only [runCell, ih, stepCell_version, List.length_cons]
      push_cast
      ring

theorem runCell_version_lower {V : Type} (s : CellState V) (ps : List (Phase V)) :
    ∀ x ∈ (runCell s ps).2, s.version < x.version := by
  induction ps generalizing s with
  | nil => intro x hx; simp [runCell] at hx
  | cons p ps ih =>
      intro x hx
      simp only [runCell, List.mem_cons] at hx
      rcases hx with hx | hx
      · rw [hx, stepCell_notif_version]; omega
      · have h1 := ih (stepCell s p).1 x hx
        rw [stepCell_version] at h1
        omega

theorem runCell_pairwise {V : Type} (s : CellState V) (ps : List (Phase V)) :
    ((runCell s ps).2).Pairwise (fun a b => a.version < b.version) := by
  induction ps generalizing s with
  | nil => simp [runCell]
  | cons p ps ih =>
      simp only [runCell, List.pairwise_cons]
      refine ⟨fun b hb => ?_, ih (stepCell s p).1⟩
      have h1 := runCell_version_lower (stepCell s p).1 ps b hb
      rw [stepCell_version] at h1
      rw [stepCell_notif_version]
      omega

theorem phaseNotif_congr {V : Type} (b1 b2 : Int) (p : Phase V) (h : b1 = b2) :
    phaseNotif b1 p = phaseNotif b2 p := by rw [h]

theorem runCell_getD {V : Type} (s : CellState V) (ps : List (Phase V)) (k : Nat)
    (hk : k < ps.length) (dn : Notification V) (dp : Phase V) :
    ((runCell s ps).2).getD k dn = phaseNotif (s.version + k) (ps.getD k dp) := by
  induction ps generalizing s k with
  | nil => simp at hk
  | cons p ps ih =>
      cases k with
      | zero =>
          simp only [runCell, List.getD_cons_zero, Nat.cast_zero, add_zero]
          exact stepCell_notif s p
      | succ k =>
          simp only [runCell, List.getD_cons_succ]
          have hk1 : k < ps.length := by simpa using hk
          rw [ih (stepCell s p).1 k hk1]
          apply phaseNotif_congr
          rw [stepCell_version]
          push_cast
          ring

/-- The bundle of refs stored in the special context value,
`{ v, n, l }` (src/index.ts lines 30-37).  Listeners are identified by
opaque ids; the `u` field (a function) is modelled separately by `update`
and `defaultUpdate` below. -/
structure CellData (V : Type) where
  v : V
  n : Int
  l : List Nat
  deriving DecidableEq

/-- The `update` closure created by `createProvider`
(src/index.ts lines 52-58):

  versionRef.current += 1;
  listeners.forEach((listener) => listener([versionRef.current]));
  thunk();

all inside one `batchedUpdates` call (a host batching primitive, so the
resulting re-renders coalesce into one pass).  The result is the updated
ref bundle, the per-listener deliveries (computed from the registry as it
stood when the broadcast ran, before the thunk executed), and the external
state after running the thunk.  `valueRef` is not touched here. -/
def update {V S : Type} (c : CellData V) (thunk : S → S) (s : S) :
    CellData V × List (Nat × Notification V) × S :=
  let n := c.n + 1
  ({ c with n := n },
   c.l.map (fun lid => (lid, Notification.versionOnly n)),
   thunk s)

/-- One settled update cycle of a mounted Provider.  Phase 1 (`bump`)
always runs inside `update`.  Phase 2 is the Provider's layout effect
(src/index.ts lines 68-76), whose dependency list is `[value]`: it runs
again only when the thunk led to a changed `value` prop on the Provider.
`some v` models a thunk that changed the Provider's value to `v`; `none`
models a no-op thunk, after which the effect does not re-run. -/
def updateCycle {V : Type} (s : CellState V) (newValue : Option V) :
    CellState V × List (Notification V) :=
  match newValue with
  | some v => runCell s [Phase.bump, Phase.commit v]
  | none => runCell s [Phase.bump]

/-- The per-consumer state held by `useReducer`,
`{ value: Value; selected: Selected }` (src/index.ts lines 139, 158). -/
structure SubState (V S : Type) where
  value : V
  selected : S
  deriving DecidableEq

/-- The subscription reducer (src/index.ts lines 138-158).  The closure
arguments `version`, `value`, `selected` and `selector` are the values the
enclosing render read from the cell (`n.current`, `v.current`,
`selector(value)`); `prev` is the reducer state and `next` the dispatched
notification.  `none` models `return prev` (same object reference, React
bails out); `some st` models returning a fresh object literal, which is
always reference-distinct from `prev` and schedules a re-render.  The
`try { ... } catch (e) { }` around the phase-2 bail-out check is modelled
by matching on the `Except` result of the selector: a thrown selector
(`Except.error`) falls through to `return { value, selected }`.  The JS
`||` short-circuit means the selector is not applied when
`Object.is(prev.value, next[1])` already holds, which the nested `if`
reproduces. -/
def reducer {V S : Type} [DecidableEq V] [DecidableEq S]
    (version : Int) (value : V) (selected : S) (selector : V → Except Unit S)
    (prev : SubState V S) (next : Notification V) : Option (SubState V S) :=
  if version < next.version then
    match next with
    | Notification.versionAndValue _ newValue =>
        if prev.value = newValue then
          none
        else
          match selector newValue with
          | Except.ok sel =>
              if prev.selected = sel then none
              else some ⟨value, selected⟩
          | Except.error _ => some ⟨value, selected⟩
    | Notification.versionOnly _ => some ⟨value, selected⟩
  else
    if prev.value = value ∨ prev.selected = selected then none
    else some ⟨value, selected⟩

/-- The two ways a hook fails at call time on a context without the
special payload: the explicit `Error('... requires special context')`
thrown by the development-mode guard (src/index.ts lines 127-131 and
196-200), and the `TypeError` the destructuring of an `undefined`
`contextValue` raises in production builds. -/
inductive HookError where
  | usageError : HookError
  | typeError : HookError
  deriving DecidableEq

/-- `useContextSelector` at render time (src/index.ts lines 120-137, 165):
read the context, fail at once if the special payload is missing
(`isDev` selects between the explicit development error and the
production `TypeError` from destructuring `undefined`), otherwise read
`v.current` and return `selector(value)`. -/
def useContextSelector {V S : Type} (isDev : Bool) (ctx : Option (CellData V))
    (selector : V → S) : Except HookError S :=
  match ctx with
  | none => if isDev then Except.error HookError.usageError else Except.error HookError.typeError
  | some cv => Except.ok (selector cv.v)

/-- `useContextUpdate` (src/index.ts lines 192-203): read the context,
fail at once if the special payload is missing, otherwise return the
payload's `u` field (modelled as the whole payload `α`, since the hook
merely extracts and returns it). -/
def useContextUpdate {α : Type} (isDev : Bool) (ctx : Option α) : Except HookError α :=
  match ctx with
  | none => if isDev then Except.error HookError.usageError else Except.error HookError.typeError
  | some cv => Except.ok cv

/-- The default cell a context carries before any Provider mounts
(src/index.ts lines 90-98): `v.current` is the default value, `n.current`
is the `-1` sentinel, and the listener set is empty. -/
def createContextCell {V : Type} (d : V) : CellData V :=
  { v := d, n := -1, l := [] }

/-- The default context value's `u` field, `u: (f) => f()`
(src/index.ts line 96): it runs the thunk and does nothing else - the ref
bundle is left untouched and no notification is delivered. -/
def defaultUpdate {V S : Type} (c : CellData V) (thunk : S → S) (s : S) :
    CellData V × List (Nat × Notification V) × S :=
  (c, [], thunk s)

/-- Claim C1: the Cell's version counter strictly increases - every phase
of every update increments it by exactly 1, across any phase sequence the
final version is the initial version plus the number of phases (so it
never decreases), the broadcast versions are strictly increasing in
delivery order, and hence no two broadcasts in the sequence carry the same
version number. -/
theorem C1_version_monotone {V : Type} (s : CellState V) (ps : List (Phase V)) :
    (∀ (t : CellState V) (p : Phase V), (stepCell t p).1.version = t.version + 1) ∧
    (runCell s ps).1.version = s.version + ps.length ∧
    ((runCell s ps).2).Pairwise (fun a b => a.version < b.version) ∧
    ((runCell s ps).2).Pairwise (fun a b => a.version ≠ b.version) := by
  refine ⟨stepCell_version, runCell_final_version s ps, runCell_pairwise s ps, ?_⟩
  exact (runCell_pairwise s ps).imp (fun h => ne_of_lt h)

/-- Claim C2: in any phase sequence in which position `i` is the phase-1
bump of an update and a later position `j` is a phase-2 commit, the
broadcast at `i` is a `VersionOnly` notification, the broadcast at `j` is
a `VersionAndValue` notification, the former is delivered to all listeners
strictly before the latter (deliveries happen in list order), and the
latter carries a strictly later version - so phase 1 never follows
phase 2 for the same logical update. -/
theorem C2_phase_ordering {V : Type} (s : CellState V) (ps : List (Phase V))
    (i j : Nat) (v : V) (hij : i < j) (hj : j < ps.length)
    (hbump : ps.getD i Phase.bump = Phase.bump)
    (hcommit : ps.getD j Phase.bump = Phase.commit v) :
    ((runCell s ps).2).getD i (Notification.versionOnly 0)
        = Notification.versionOnly (s.version + i + 1) ∧
    ((runCell s ps).2).getD j (Notification.versionOnly 0)
        = Notification.versionAndValue (s.version + j + 1) v ∧
    s.version + i + 1 < s.version + j + 1 := by
  refine ⟨?_, ?_, ?_⟩
  · rw [runCell_getD s ps i (lt_trans hij hj) (Notification.versionOnly 0) Phase.bump, hbump]
    simp [phaseNotif]
  · rw [runCell_getD s ps j hj (Notification.versionOnly 0) Phase.bump, hcommit]
    simp [phaseNotif]
  · omega

/-- Witness for C2 at a concrete run: initial version 0, one update whose
phase 1 is at position 0 and whose phase 2 (committing the value 7) is at
position 1: the broadcast list is `[VersionOnly 1, VersionAndValue 2 7]`. -/
theorem C2_phase_ordering_witness :
    ((runCell (⟨0, 0⟩ : CellState Int) [Phase.bump, Phase.commit 7]).2).getD 0
        (Notification.versionOnly 0) = Notification.versionOnly 1 ∧
    ((runCell (⟨0, 0⟩ : CellState Int) [Phase.bump, Phase.commit 7]).2).getD 1
        (Notification.versionOnly 0) = Notification.versionAndValue 2 7 ∧
    (0 : Int) + 0 + 1 < 0 + 1 + 1 :=
  C2_phase_ordering ⟨0, 0⟩ [Phase.bump, Phase.commit 7] 0 1 7
    (by decide) (by decide) rfl rfl

/-- Claim C3: `update(cell, thunk)` (run inside one `batchedUpdates`
batch) performs exactly: (1) increment the version by 1, (2) deliver
`VersionOnly` with the new version to every listener currently in the
registry, (3) run the thunk; the cell's value is not reassigned and the
registry is unchanged. -/
theorem C3_update_algorithm {V S : Type} (c : CellData V) (thunk : S → S) (s : S) :
    (update c thunk s).1.n = c.n + 1 ∧
    (update c thunk s).1.v = c.v ∧
    (update c thunk s).1.l = c.l ∧
    (update c thunk s).2.1 = c.l.map (fun lid => (lid, Notification.versionOnly (c.n + 1))) ∧
    (update c thunk s).2.2 = thunk s :=
  ⟨rfl, rfl, rfl, rfl, rfl⟩

/-- A selector that never throws: the identity selection, `x => x`. -/
def okSel (x : Int) : Except Unit Int := Except.ok x

/-- A selector that always throws when applied. -/
def failSel (_ : Int) : Except Unit Int := Except.error ()

/-- Claim C4 counterexample: with notification version 1 above the locally
observed version 0, render-time captured value 10 and selected 10
(identity selector), previous state `{value 10, selected 10}` and a
`VersionAndValue(1, 20)` notification, neither bail-out condition holds
(10 is not 20, and the recomputed selection 20 is not 10), yet the reducer
returns the render-time pair `{value 10, selected 10}` - not
`{value: newValue, selected: selector(newValue)} = {20, 20}` as the claim
states. -/
theorem C4_counterexample :
    (0 : Int) < 1 ∧
    okSel 20 = Except.ok 20 ∧
    ((10 : Int) ≠ 20) ∧
    reducer 0 (10 : Int) (10 : Int) okSel ⟨10, 10⟩ (Notification.versionAndValue 1 20)
        = some ⟨10, 10⟩ ∧
    reducer 0 (10 : Int) (10 : Int) okSel ⟨10, 10⟩ (Notification.versionAndValue 1 20)
        ≠ some ⟨20, 20⟩ := by
  refine ⟨by decide, rfl, by decide, rfl, by decide⟩

/-- Claim C4 (amended): when the reducer receives `VersionAndValue(v,
newValue)` with `v` above the locally observed version, it bails out
(returns `prev` unchanged) exactly when `newValue` is reference-identical
to `prev.value` or the selector applied to `newValue` returns a result
reference-identical to `prev.selected`; otherwise it returns a fresh state
object built from the render-time captured value and selection
`{ value, selected }` (not from the notification), scheduling a
re-render. -/
theorem C4_vv_transition {V S : Type} [DecidableEq V] [DecidableEq S]
    (version : Int) (value : V) (selected : S) (selector : V → Except Unit S)
    (prev : SubState V S) (n : Int) (newValue : V) (h : version < n) :
    reducer version value selected selector prev (Notification.versionAndValue n newValue)
      = if prev.value = newValue ∨ (selector newValue).toOption = some prev.selected
        then none
        else some ⟨value, selected⟩ := by
  simp only [reducer, Notification.version, if_pos h]
  by_cases hv : prev.value = newValue
  · simp [hv]
  · cases hsel : selector newValue with
    | ok sel =>
        by_cases hs : prev.selected = sel
        · simp [hv, hs, hsel, Except.toOption]
        · have hs2 : ¬ sel = prev.selected := fun hss => hs hss.symm
          simp [hv, hs, hs2, hsel, Except.toOption]
    | error e => simp [hv, hsel, Except.toOption]

/-- Witness for the amended C4 at the counterexample input: the bail-out
conditions fail and the reducer returns the render-time pair. -/
theorem C4_vv_transition_witness :
    (0 : Int) < 1 ∧
    reducer 0 (10 : Int) (10 : Int) okSel ⟨10, 10⟩ (Notification.versionAndValue 1 20)
      = if (10 : Int) = 20 ∨ (okSel 20).toOption = some (10 : Int)
        then none
        else some ⟨(10 : Int), (10 : Int)⟩ :=
  ⟨by decide, C4_vv_transition 0 10 10 okSel ⟨10, 10⟩ 1 20 (by decide)⟩

/-- Claim C5: when the reducer receives `VersionOnly(n)` with `n` above
the locally observed version, it unconditionally returns `some`, i.e. a
freshly allocated state object (always reference-distinct from `prev`, so
a re-render is forced even if the eventual value turns out unchanged),
whose fields are the current cell value and selection the enclosing
render read. -/
theorem C5_phase1_forces_rerender {V S : Type} [DecidableEq V] [DecidableEq S]
    (version : Int) (value : V) (selected : S) (selector : V → Except Unit S)
    (prev : SubState V S) (n : Int) (h : version < n) :
    reducer version value selected selector prev (Notification.versionOnly n)
      = some ⟨value, selected⟩ := by
  simp [reducer, Notification.version, h]

/-- Witness for C5: a consumer caught up at version 0 receiving
`VersionOnly(1)` schedules an update even though value and selection are
unchanged. -/
theorem C5_phase1_forces_rerender_witness :
    (0 : Int) < 1 ∧
    reducer 0 (10 : Int) (10 : Int) okSel ⟨10, 10⟩ (Notification.versionOnly 1)
      = some ⟨10, 10⟩ :=
  ⟨by decide, C5_phase1_forces_rerender 0 10 10 okSel ⟨10, 10⟩ 1 (by decide)⟩

/-- Claim C6: if the selector throws when the reducer applies it to a
newly committed value (which only happens when `newValue` is not
reference-identical to `prev.value`, by the `||` short-circuit), the
exception is swallowed - the reducer still returns a value, namely the
forced update `some { value, selected }` - so the update is neither
dropped nor turned into an incorrect bail-out, and nothing propagates to
the consumer or producer (the reducer is a total function). -/
theorem C6_selector_exception_swallowed {V S : Type} [DecidableEq V] [DecidableEq S]
    (version : Int) (value newValue : V) (selected : S) (selector : V → Except Unit S)
    (prev : SubState V S) (n : Int) (h : version < n)
    (herr : selector newValue = Except.error ())
    (hne : prev.value ≠ newValue) :
    reducer version value selected selector prev (Notification.versionAndValue n newValue)
      = some ⟨value, selected⟩ := by
  simp [reducer, Notification.version, h, hne, herr]

/-- Witness for C6: a throwing selector on a phase-2 notification still
yields a forced update. -/
theorem C6_selector_exception_swallowed_witness :
    (0 : Int) < 1 ∧
    failSel 20 = Except.error () ∧
    ((10 : Int) ≠ 20) ∧
    reducer 0 (10 : Int) (10 : Int) failSel ⟨10, 10⟩ (Notification.versionAndValue 1 20)
      = some ⟨10, 10⟩ :=
  ⟨by decide, rfl, by decide,
    C6_selector_exception_swallowed 0 10 20 10 failSel ⟨10, 10⟩ 1 (by decide) rfl (by decide)⟩

/-- Claim C7: when the notification's version is at most the locally
observed version, the reducer returns `prev` (bails out, no re-render)
exactly when `prev.value` is reference-identical to the render-time cell
value or `prev.selected` is reference-identical to the render-time
selection; otherwise it adopts `{ value, selected }` from the render-time
read. -/
theorem C7_stale_bailout {V S : Type} [DecidableEq V] [DecidableEq S]
    (version : Int) (value : V) (selected : S) (selector : V → Except Unit S)
    (prev : SubState V S) (next : Notification V) (h : next.version ≤ version) :
    reducer version value selected selector prev next
      = if prev.value = value ∨ prev.selected = selected
        then none
        else some ⟨value, selected⟩ := by
  have hnot : ¬ version < next.version := by omega
  simp [reducer, hnot]

/-- Witness for C7: a stale `VersionAndValue(0, 99)` at observed version 0
with matching previous value bails out. -/
theorem C7_stale_bailout_witness :
    Notification.version (Notification.versionAndValue 0 (99 : Int)) ≤ 0 ∧
    reducer 0 (10 : Int) (10 : Int) okSel ⟨10, 10⟩ (Notification.versionAndValue 0 99)
      = if (10 : Int) = 10 ∨ (10 : Int) = 10 then none else some ⟨(10 : Int), (10 : Int)⟩ :=
  ⟨by decide, C7_stale_bailout 0 10 10 okSel ⟨10, 10⟩ (Notification.versionAndValue 0 99)
    (by decide)⟩

/-- Claim C8: invoking `useContextSelector` or `useContextUpdate` against
a context handle lacking the internal cell payload fails immediately at
call time in every environment mode: the development guard throws the
explicit usage error, and in production the destructuring of the missing
payload raises a `TypeError`. -/
theorem C8_foreign_context_errors {V S : Type} (isDev : Bool) (selector : V → S) :
    useContextSelector isDev (none : Option (CellData V)) selector
      = Except.error (if isDev then HookError.usageError else HookError.typeError) ∧
    useContextUpdate isDev (none : Option (CellData V))
      = Except.error (if isDev then HookError.usageError else HookError.typeError) := by
  cases isDev <;> exact ⟨rfl, rfl⟩

/-- Claim C9 counterexample: a no-op update (the thunk leaves the
Provider's `value` prop unchanged, so the `[value]`-keyed layout effect
does not re-run and phase 2 never happens) advances the version of a cell
at version 0 to 1, not to 0 + 2 as the claim states; moreover its
`VersionOnly(1)` broadcast makes the reducer of a caught-up consumer with
an unchanged selected slice (observed version 0, value 1, selected 1)
return a fresh state object (`some`, not the `none` bail-out), scheduling
one re-render rather than the zero re-renders the claim states. -/
theorem C9_counterexample :
    (updateCycle (⟨1, 0⟩ : CellState Int) none).1.version = 1 ∧
    (updateCycle (⟨1, 0⟩ : CellState Int) none).1.version ≠ 0 + 2 ∧
    (updateCycle (⟨1, 0⟩ : CellState Int) none).2 = [Notification.versionOnly 1] ∧
    reducer 0 (1 : Int) (1 : Int) okSel ⟨1, 1⟩ (Notification.versionOnly 1) = some ⟨1, 1⟩ ∧
    some (⟨1, 1⟩ : SubState Int Int) ≠ none := by
  refine ⟨rfl, by decide, rfl, rfl, by decide⟩

/-- Claim C9 (amended): an update whose thunk leads to a changed Provider
value advances the version by exactly 2 once all effects settle (one bump
per phase); an update with a no-op thunk runs only phase 1, advancing the
version by exactly 1 and broadcasting a single `VersionOnly` notification,
which makes every caught-up subscribed consumer's reducer return a fresh
state object - one scheduled re-render per consumer, even when the
selected slice is unchanged. -/
theorem C9_update_cycle {V S T : Type} [DecidableEq S] [DecidableEq T]
    (s : CellState V) (v : V) (value : S) (selected : T)
    (selector : S → Except Unit T) (prev : SubState S T) :
    (updateCycle s (some v)).1.version = s.version + 2 ∧
    (updateCycle s none).1.version = s.version + 1 ∧
    (updateCycle s none).2 = [Notification.versionOnly (s.version + 1)] ∧
    reducer s.version value selected selector prev (Notification.versionOnly (s.version + 1))
      = some ⟨value, selected⟩ := by
  have h : s.version < s.version + 1 := by omega
  refine ⟨?_, ?_, ?_, ?_⟩
  · simp only [updateCycle, runCell, stepCell]
    ring
  · simp only [updateCycle, runCell, stepCell]
  · simp only [updateCycle, runCell, stepCell]
  · simp [reducer, Notification.version, h]

/-- Claim C10: for a context whose Provider is not mounted, the default
cell's update function `u: (f) => f()` merely executes the given thunk:
the cell is untouched (its version is still the `-1` sentinel), no
notification is delivered to any listener, and the external state is the
thunk's result; `useContextUpdate` returns exactly this payload. -/
theorem C10_default_update_inert {V S : Type} (isDev : Bool) (d : V) (thunk : S → S) (s : S) :
    (defaultUpdate (createContextCell d) thunk s).1 = createContextCell d ∧
    (defaultUpdate (createContextCell d) thunk s).1.n = -1 ∧
    (defaultUpdate (createContextCell d) thunk s).2.1 = ([] : List (Nat × Notification V)) ∧
    (defaultUpdate (createContextCell d) thunk s).2.2 = thunk s ∧
    useContextUpdate isDev (some (createContextCell d)) = Except.ok (createContextCell d) :=
  ⟨rfl, rfl, rfl, rfl, rfl⟩
